import Mathlib

/-!
Shallow embedding of the aquarium-management-system hub/node firmware
(ESP-NOW transport, device fleet registry, safety monitor, scheduler and
node pairing state machine), together with theorems settling the frozen
specification claims against it.

Machine integers (`uint32_t`) are modelled as `Nat` with explicit wrap-around
where the source relies on unsigned arithmetic; byte buffers are `List Nat`;
the C++ `std::map` containers are association lists keyed by the 48-bit MAC
key the source itself computes (`macToKey`).
-/

namespace AMS

/-- Wrapping `uint32_t` subtraction `a - b` as the C code computes it
(`millis() - timestamp`): the result is reduced modulo 2^32. -/
def sub32 (a b : Nat) : Nat :=
  (a + 4294967296 - b % 4294967296) % 4294967296

theorem sub32_self (a : Nat) : sub32 a a = 0 := by
  unfold sub32
  have h1 : a % 4294967296 ≤ a := Nat.mod_le a 4294967296
  have h2 : a + 4294967296 - a % 4294967296
      = (a - a % 4294967296) + 4294967296 := by omega
  rw [h2]
  have h3 : a - a % 4294967296 = 4294967296 * (a / 4294967296) := by
    have := Nat.div_add_mod a 4294967296
    omega
  rw [h3]
  simp [Nat.add_mul_mod_self_left]

theorem sub32_of_le (a b : Nat) (hb : b < 4294967296) (hle : b ≤ a)
    (ha : a < 4294967296) : sub32 a b = a - b := by
  unfold sub32
  rw [Nat.mod_eq_of_lt hb]
  have h2 : a + 4294967296 - b = (a - b) + 4294967296 := by omega
  rw [h2, Nat.add_mod_right, Nat.mod_eq_of_lt (by omega)]

/-! ## Device model (src/src/models/Device.cpp)

The parts of `Device` that the safety monitor reads and writes: connection
status, last-heartbeat timestamp and the (pure-virtual) `triggerFailSafe()`
capability, which we model as a counter of how many times it was invoked. -/

/-- `Device::Status` (src/include/models/Device.h). -/
inductive DStatus where
  | UNKNOWN
  | ONLINE
  | OFFLINE
  | ERROR
  | INITIALIZING
deriving DecidableEq

/-- The health-relevant state of one `Device`: its connection status, the
`_lastHeartbeat` timestamp (0 = no heartbeat ever received) and the number
of `triggerFailSafe()` invocations performed on it so far. -/
structure Dev where
  status : DStatus
  lastHeartbeat : Nat
  failSafeCount : Nat
deriving DecidableEq

/-- `Device::hasHeartbeatTimedOut` (src/src/models/Device.cpp lines 102-109):
never timed out when `_lastHeartbeat == 0`, otherwise
`millis() - _lastHeartbeat > timeoutMs` in `uint32_t` arithmetic. -/
def hasHeartbeatTimedOut (d : Dev) (timeoutMs now : Nat) : Bool :=
  if d.lastHeartbeat = 0 then false
  else decide (sub32 now d.lastHeartbeat > timeoutMs)

/-- The body of the per-device loop of `AquariumManager::checkDeviceHealth`
(src/src/managers/AquariumManager.cpp lines 418-442): an `ONLINE` device
whose heartbeat has timed out (60 s) gets `triggerFailSafe()`, is marked
`OFFLINE`, and a "deviceOffline" notification (the returned flag) is
emitted; every other device is left untouched. -/
def healthStep (now : Nat) (d : Dev) : Dev × Bool :=
  if d.status = DStatus.ONLINE ∧ hasHeartbeatTimedOut d 60000 now = true then
    ({ d with status := DStatus.OFFLINE, failSafeCount := d.failSafeCount + 1 }, true)
  else (d, false)

/-- `AquariumManager::checkDeviceHealth`: iterates the global device
registry, applying `healthStep`; returns the updated registry and the number
of "deviceOffline" notifications emitted. -/
def checkDeviceHealth (devs : List Dev) (now : Nat) : List Dev × Nat :=
  (devs.map (fun d => (healthStep now d).1),
   (devs.filter (fun d => (healthStep now d).2)).length)

/-- C2: a registered device that is Online and whose heartbeat age exceeds
60 seconds gets exactly one `triggerFailSafe()` invocation from
`checkDeviceHealth`, is marked Offline and produces one device-offline
notification; on any later `checkDeviceHealth` call, while it stays Offline
with no new heartbeat, `triggerFailSafe()` is not invoked again and no
further notification is emitted. -/
theorem checkDeviceHealth_failsafe_once (d : Dev) (now now2 : Nat)
    (h1 : d.status = DStatus.ONLINE) (h2 : d.lastHeartbeat ≠ 0)
    (h3 : 60000 < sub32 now d.lastHeartbeat) :
    checkDeviceHealth [d] now
        = ([{ d with
              status := DStatus.OFFLINE,
              failSafeCount := d.failSafeCount + 1 }], 1) ∧
    checkDeviceHealth
        [{ d with
           status := DStatus.OFFLINE,
           failSafeCount := d.failSafeCount + 1 }] now2
        = ([{ d with
              status := DStatus.OFFLINE,
              failSafeCount := d.failSafeCount + 1 }], 0) := by
  constructor
  · simp [checkDeviceHealth, healthStep, hasHeartbeatTimedOut, h1, h2, h3]
  · simp [checkDeviceHealth, healthStep]

/-- Concrete instance of `checkDeviceHealth_failsafe_once`: an Online device
whose last heartbeat is 70001 ms old fail-safes exactly once. -/
theorem checkDeviceHealth_failsafe_once_witness :
    checkDeviceHealth
        [{ status := DStatus.ONLINE, lastHeartbeat := 1000, failSafeCount := 0 : Dev }] 71001
        = ([{ status := DStatus.OFFLINE, lastHeartbeat := 1000, failSafeCount := 1 : Dev }], 1) ∧
    checkDeviceHealth
        [{ status := DStatus.OFFLINE, lastHeartbeat := 1000, failSafeCount := 1 : Dev }] 76001
        = ([{ status := DStatus.OFFLINE, lastHeartbeat := 1000, failSafeCount := 1 : Dev }], 0) := by
  have h := checkDeviceHealth_failsafe_once
    { status := DStatus.ONLINE, lastHeartbeat := 1000, failSafeCount := 0 }
    71001 76001 rfl (by decide) (by decide)
  exact h

/-- C10: a device whose `_lastHeartbeat` is 0 (no heartbeat ever received)
is never considered timed out for any timeout value, so `checkDeviceHealth`
neither invokes `triggerFailSafe()` on it nor marks it Offline nor emits a
notification, whatever its status. -/
theorem no_heartbeat_never_times_out (d : Dev) (timeoutMs now : Nat)
    (h : d.lastHeartbeat = 0) :
    hasHeartbeatTimedOut d timeoutMs now = false ∧
    checkDeviceHealth [d] now = ([d], 0) := by
  refine ⟨by simp [hasHeartbeatTimedOut, h], ?_⟩
  simp [checkDeviceHealth, healthStep, hasHeartbeatTimedOut, h]

/-- Concrete instance of `no_heartbeat_never_times_out`: an Online device
that never delivered a heartbeat survives a health check unchanged. -/
theorem no_heartbeat_never_times_out_witness :
    hasHeartbeatTimedOut
      { status := DStatus.ONLINE, lastHeartbeat := 0, failSafeCount := 0 } 60000 999999999
      = false ∧
    checkDeviceHealth
        [{ status := DStatus.ONLINE, lastHeartbeat := 0, failSafeCount := 0 : Dev }] 999999999
        = ([{ status := DStatus.ONLINE, lastHeartbeat := 0, failSafeCount := 0 : Dev }], 0) :=
  no_heartbeat_never_times_out
    { status := DStatus.ONLINE, lastHeartbeat := 0, failSafeCount := 0 } 60000 999999999 rfl

/-! ## Schedule model (src/src/models/Schedule.cpp)

`localtime` (used only by the Daily/Weekly time matching, which no claim
exercises) is modelled as UTC arithmetic on epoch milliseconds; the Unix
epoch day is a Thursday, hence the `+ 4` in the day-of-week computation. -/

/-- `Schedule::Type` (src/include/models/Schedule.h). -/
inductive ScheduleType where
  | ONE_TIME
  | DAILY
  | WEEKLY
  | INTERVAL
deriving DecidableEq

/-- `Schedule::TimeSpec`: an hour/minute pair. -/
structure TimeSpec where
  hour : Nat
  minute : Nat
deriving DecidableEq

/-- The schedule state that `isDue`/`markExecuted` read and write. -/
structure Schedule where
  stype : ScheduleType
  enabled : Bool
  daysMask : Nat
  intervalSeconds : Nat
  lastExecution : Nat
  nextExecution : Nat
  executionCount : Nat
  times : List TimeSpec
deriving DecidableEq

/-- `Schedule::_isDayMatching`: day of week of `currentTime` (epoch
milliseconds, 0 = Sunday) tested against the `daysMask` bitmask. -/
def isDayMatching (s : Schedule) (currentTime : Nat) : Bool :=
  decide (s.daysMask &&& (1 <<< ((currentTime / 1000 / 86400 + 4) % 7)) ≠ 0)

/-- `Schedule::_isTimeMatching`: whether the hour/minute of `currentTime`
equals some configured `TimeSpec`. -/
def isTimeMatching (s : Schedule) (currentTime : Nat) : Bool :=
  s.times.any (fun t =>
    t.hour = currentTime / 1000 % 86400 / 3600 ∧
    t.minute = currentTime / 1000 % 3600 / 60)

/-- `Schedule::isDue` (src/src/models/Schedule.cpp lines 51-80): false when
disabled or when less than the 60-second duplicate guard has elapsed since
the last execution; otherwise the type-specific condition. All timestamp
arithmetic is `uint32_t`. -/
def isDue (s : Schedule) (currentTime : Nat) : Bool :=
  if s.enabled = false then false
  else if s.lastExecution > 0 ∧ sub32 currentTime s.lastExecution < 60000 then false
  else
    match s.stype with
    | ScheduleType.ONE_TIME =>
        decide (currentTime ≥ s.nextExecution ∧ s.executionCount = 0)
    | ScheduleType.DAILY => isTimeMatching s currentTime
    | ScheduleType.WEEKLY => isDayMatching s currentTime && isTimeMatching s currentTime
    | ScheduleType.INTERVAL =>
        if s.lastExecution = 0 then true
        else decide (sub32 currentTime s.lastExecution ≥ s.intervalSeconds * 1000 % 4294967296)

/-- `Schedule::calculateNextExecution` (src/src/models/Schedule.cpp lines
99-116). -/
def calculateNextExecution (s : Schedule) (currentTime : Nat) : Nat :=
  match s.stype with
  | ScheduleType.ONE_TIME => 0
  | ScheduleType.INTERVAL => (currentTime + s.intervalSeconds * 1000) % 4294967296
  | ScheduleType.DAILY => (currentTime + 24 * 3600 * 1000) % 4294967296
  | ScheduleType.WEEKLY => (currentTime + 24 * 3600 * 1000) % 4294967296

/-- `Schedule::markExecuted` (src/src/models/Schedule.cpp lines 85-94). -/
def markExecuted (s : Schedule) (currentTime : Nat) : Schedule :=
  { s with
    lastExecution := currentTime,
    executionCount := s.executionCount + 1,
    nextExecution := calculateNextExecution s currentTime }

/-- An enabled Interval schedule with `intervalSeconds = 10` that has never
executed, as the C7 claim configures it. -/
def intervalSchedule10 : Schedule :=
  { stype := ScheduleType.INTERVAL, enabled := true, daysMask := 127,
    intervalSeconds := 10, lastExecution := 0, nextExecution := 0,
    executionCount := 0, times := [] }

/-- C7 counterexample: the claim implies the interval-10 schedule is due
again at `t + 10000` after `markExecuted(t)`; at t = 100000 the code still
reports not-due at 110000, because the 60-second duplicate-execution guard
dominates the 10-second interval. -/
theorem isDue_at_interval_after_markExecuted_false :
    isDue (markExecuted intervalSchedule10 100000) 110000 = false := by
  decide

/-- C7 amended: an enabled Interval schedule with `intervalSeconds = 10` and
no prior execution is due on its first check at any time; after
`markExecuted(t)` (t > 0) it is due again exactly when the elapsed
`uint32_t` time since t reaches 60000 ms — the 60-second duplicate guard,
not the 10-second interval, decides the next firing. -/
theorem intervalSchedule10_due (t u v : Nat) (ht : 0 < t) :
    isDue intervalSchedule10 u = true ∧
    (isDue (markExecuted intervalSchedule10 t) v = true ↔ 60000 ≤ sub32 v t) := by
  constructor
  · simp [isDue, intervalSchedule10]
  · simp only [isDue, markExecuted, calculateNextExecution, intervalSchedule10]
    constructor
    · intro h
      by_contra hc
      simp only [not_le] at hc
      simp [ht, hc] at h
    · intro h
      have hg : ¬(t > 0 ∧ sub32 v t < 60000) := by omega
      simp only [if_neg hg]
      have ht0 : t ≠ 0 := by omega
      simp [ht0]
      omega

/-- Concrete instance of `intervalSchedule10_due`: first check at time 5 is
due; after execution at t = 100000 the schedule is due again at 160000 (and
`isDue_at_interval_after_markExecuted_false` shows it is not at 110000). -/
theorem intervalSchedule10_due_witness :
    isDue intervalSchedule10 5 = true ∧
    (isDue (markExecuted intervalSchedule10 100000) 160000 = true ↔
      60000 ≤ sub32 160000 100000) :=
  intervalSchedule10_due 100000 5 160000 (by decide)

/-! ## Message transport: retry with backoff
(src/lib/ESPNowManager/ESPNowManager.cpp lines 271-292)

`sendWithRetry` is a `for (attempt = 0; attempt <= maxRetries; attempt++)`
loop; each iteration with `attempt > 0` first waits
`ESPNOW_RETRY_BASE_DELAY_MS * 2^(attempt-1)` ms, then calls `send`. We
model the underlying `send` outcomes as a function from the attempt index
to a Bool and record, besides the success result, the number of `send`
calls made and the list of delays waited. -/

/-- One iteration of the retry loop, recursing on the number of loop
iterations still allowed (`maxRetries + 1 - attempt` at the top call). -/
def retryLoop (f : Nat → Bool) : Nat → Nat → Bool × Nat × List Nat
  | 0, _ => (false, 0, [])
  | fuel + 1, attempt =>
    let ds : List Nat := if attempt = 0 then [] else [100 * 2 ^ (attempt - 1)]
    if f attempt then (true, 1, ds)
    else
      let r := retryLoop f fuel (attempt + 1)
      (r.1, r.2.1 + 1, ds ++ r.2.2)

/-- `ESPNowManager::sendWithRetry`: returns (success, send attempts made,
delays waited before retries). The loop body runs for
`attempt = 0 .. maxRetries`, i.e. at most `maxRetries + 1` times. -/
def sendWithRetry (f : Nat → Bool) (maxRetries : Nat) : Bool × Nat × List Nat :=
  retryLoop f (maxRetries + 1) 0

/-- A link on which every send fails. -/
def allSendsFail : Nat → Bool := fun _ => false

theorem retryLoop_allFail (fuel attempt : Nat) (h : 1 ≤ attempt) :
    retryLoop allSendsFail fuel attempt
      = (false, fuel, (List.range fuel).map (fun i => 100 * 2 ^ (attempt - 1 + i))) := by
  induction fuel generalizing attempt with
  | zero => simp [retryLoop]
  | succ n ih =>
    have ha : attempt ≠ 0 := by omega
    rw [retryLoop]
    simp only [allSendsFail, if_neg ha, if_neg (by simp : ¬ (false = true))]
    rw [ih (attempt + 1) (by omega)]
    simp [List.range_succ_eq_map, List.map_map, Function.comp]
    omega

/-- C4 counterexample: `sendWithRetry` called with `maxRetries = 3` (the
claim's "maxAttempts=3") and every send failing performs 4 send attempts,
not 3, and waits 100, 200 and 400 ms — the claimed "exactly 3 attempts with
delays 100 ms and 200 ms" is false. -/
theorem sendWithRetry_three_not_three_attempts :
    sendWithRetry allSendsFail 3 = (false, 4, [100, 200, 400]) ∧
    (sendWithRetry allSendsFail 3).2.1 ≠ 3 := by
  constructor
  · rfl
  · decide

/-- C4 amended: with parameter `maxRetries = n` and every send failing,
`sendWithRetry` performs exactly `n + 1` send attempts — the initial try
plus `n` retries — waiting `100 * 2^(k-1)` ms before the k-th retry, and
returns failure; in particular `maxRetries = 3` gives 4 attempts with
delays 100, 200, 400 ms. -/
theorem sendWithRetry_allFail (n : Nat) :
    sendWithRetry allSendsFail n
      = (false, n + 1, (List.range n).map (fun i => 100 * 2 ^ i)) := by
  rw [sendWithRetry, retryLoop]
  simp only [allSendsFail, if_pos rfl, if_neg (by simp : ¬ (false = true))]
  rw [retryLoop_allFail n 1 (by omega)]
  simp

/-! ## Message transport: duplicate suppression
(src/lib/ESPNowManager/ESPNowManager.cpp lines 684-703 and 496-512)

The hub's peer table `_peers : std::map<uint64_t, PeerStatus>` is modelled
as an association list from the `macToKey` value to `lastSeqReceived`. -/

/-- `ESPNowManager::isDuplicate`: nodes never report duplicates; an unknown
peer is not a duplicate (and its sequence is not recorded); a known peer's
message is a duplicate iff its sequence number equals the last recorded one
and is nonzero, and the recorded sequence is then updated to the received
one. Returns (isDup, updated peer table). -/
def isDuplicate (isHub : Bool) (peers : List (Nat × Nat)) (mac seq : Nat) :
    Bool × List (Nat × Nat) :=
  if isHub = false then (false, peers)
  else
    match peers.lookup mac with
    | none => (false, peers)
    | some last =>
      (decide (seq = last ∧ seq ≠ 0),
       peers.map (fun p => if p.1 = mac then (p.1, seq) else p))

/-- The dedup gate of `ESPNowManager::processReceivedMessage` on the hub:
a frame (of valid length) is dispatched to its type handler iff
`isDuplicate` rejects it as a duplicate. Returns (dispatched, updated
peer table). -/
def processReceivedMessage (peers : List (Nat × Nat)) (mac seq : Nat) :
    Bool × List (Nat × Nat) :=
  let r := isDuplicate true peers mac seq
  (!r.1, r.2)

/-- C6: on the hub a received message is a duplicate (hence not dispatched)
iff its sequence number equals the last sequence recorded for its sender
and is nonzero; concretely, a known sender (with recorded sequence 0)
sending sequence 5 twice in a row is dispatched exactly once, while sending
sequence 0 twice is dispatched both times. -/
theorem isDuplicate_iff_and_dispatch_counts :
    (∀ (peers : List (Nat × Nat)) (mac seq : Nat),
      (isDuplicate true peers mac seq).1 = true ↔
        (peers.lookup mac = some seq ∧ seq ≠ 0)) ∧
    processReceivedMessage [(3, 0)] 3 5 = (true, [(3, 5)]) ∧
    processReceivedMessage [(3, 5)] 3 5 = (false, [(3, 5)]) ∧
    processReceivedMessage [(3, 0)] 3 0 = (true, [(3, 0)]) := by
  refine ⟨?_, by decide, by decide, by decide⟩
  intro peers mac seq
  unfold isDuplicate
  simp only [if_neg (by simp : ¬ (true = false))]
  cases h : peers.lookup mac with
  | none => simp
  | some last =>
    simp only [decide_eq_true_eq]
    constructor
    · rintro ⟨rfl, hz⟩
      exact ⟨rfl, hz⟩
    · rintro ⟨hl, hz⟩
      exact ⟨(Option.some_inj.mp hl).symm, hz⟩

/-! ## Message transport: fragmentation and reassembly
(src/lib/ESPNowManager/ESPNowManager.cpp lines 205-269 and 566-647)

A `CommandMessage` body always carries exactly `ESPNOW_FRAGMENT_SIZE = 32`
payload bytes: `sendFragmented` zero-initialises the struct and copies the
chunk into it, and the receiver always copies all 32 bytes back out — the
wire format has no per-fragment length field. -/

/-- The body of a Command frame: command id, fragment sequence id,
final-fragment flag and the fixed 32-byte payload slot. -/
structure CommandMessage where
  commandId : Nat
  commandSeqID : Nat
  finalCommand : Bool
  commandData : List Nat
deriving DecidableEq

/-- A chunk padded with zero bytes to the fixed 32-byte `commandData` slot
(the `CommandMessage` struct is zero-initialised before the `memcpy`). -/
def pad32 (l : List Nat) : List Nat :=
  l ++ List.replicate (32 - l.length) 0

/-- One iteration of the `sendFragmented` while-loop, recursing on an upper
bound of the remaining iteration count (each iteration consumes at least
one payload byte, so `data.length` iterations always suffice). -/
def fragmentLoop (cid : Nat) : Nat → Nat → List Nat → List CommandMessage
  | 0, _, _ => []
  | fuel + 1, seqID, data =>
    if data.length ≤ 32 then
      [{ commandId := cid, commandSeqID := seqID, finalCommand := true,
         commandData := pad32 data }]
    else
      { commandId := cid, commandSeqID := seqID, finalCommand := false,
        commandData := pad32 (data.take 32) } ::
        fragmentLoop cid fuel (seqID + 1) (data.drop 32)

/-- `ESPNowManager::sendFragmented`: splits the payload into 32-byte chunks
with increasing fragment sequence ids starting at 0, the last chunk flagged
final. (The empty payload sends no fragment; payloads above 512 bytes are
rejected before the loop, which the round-trip theorems reflect by bounding
the length.) -/
def sendFragmented (cid : Nat) (data : List Nat) : List CommandMessage :=
  fragmentLoop cid data.length 0 data

/-- `ReassemblyContext` (src/lib/ESPNowManager/ESPNowManager.h): the single
in-flight reassembly transfer of a node. The `offset` field of the source
is `buffer.length` here. -/
structure ReassemblyContext where
  active : Bool
  commandId : Nat
  expectedSeqID : Nat
  startTime : Nat
  buffer : List Nat
deriving DecidableEq

/-- The all-zero context that `resetReassembly` (a `memset`) produces. -/
def emptyReassembly : ReassemblyContext :=
  { active := false, commandId := 0, expectedSeqID := 0, startTime := 0, buffer := [] }

/-- `ESPNowManager::processCommand` on a node (the hub drops Command frames
before this logic): returns the updated reassembly context and the payload
delivered to the command callback, if any. A frame with sequence id 0 and
the final flag is a single-frame command delivered immediately (all 32
bytes of `commandData`); otherwise a timed-out in-flight transfer is first
discarded, an inactive context only accepts a fragment with sequence id 0
(which starts a new transfer), and a command-id or sequence mismatch or a
buffer overflow discards the whole transfer. -/
def processCommand (st : ReassemblyContext) (now : Nat) (cmd : CommandMessage) :
    ReassemblyContext × Option (List Nat) :=
  if cmd.commandSeqID = 0 ∧ cmd.finalCommand = true then
    (st, some cmd.commandData)
  else
    let st1 := if st.active = true ∧ sub32 now st.startTime > 1500
               then emptyReassembly else st
    if st1.active = false ∧ cmd.commandSeqID ≠ 0 then (st1, none)
    else
      let st2 := if st1.active = false then
          { active := true, commandId := cmd.commandId, expectedSeqID := 0,
            startTime := now, buffer := [] }
        else st1
      if cmd.commandId ≠ st2.commandId then (emptyReassembly, none)
      else if cmd.commandSeqID ≠ st2.expectedSeqID then (emptyReassembly, none)
      else if 512 < st2.buffer.length + 32 then (emptyReassembly, none)
      else
        let st3 := { st2 with
                     buffer := st2.buffer ++ cmd.commandData,
                     expectedSeqID := st2.expectedSeqID + 1 }
        if cmd.finalCommand = true then (emptyReassembly, some st3.buffer)
        else (st3, none)

/-- Feeding a list of Command frames in order through `processCommand`,
collecting every payload delivered to the command callback. -/
def runFragments (now : Nat) : ReassemblyContext → List CommandMessage →
    ReassemblyContext × List (List Nat)
  | st, [] => (st, [])
  | st, cmd :: rest =>
    let r := processCommand st now cmd
    let rest2 := runFragments now r.1 rest
    (rest2.1, r.2.toList ++ rest2.2)

/-- The payload padded with zero bytes up to the next multiple of 32 — what
the receive path actually hands to the command callback. -/
def padTo32Multiple (l : List Nat) : List Nat :=
  l ++ List.replicate (32 * ((l.length + 31) / 32) - l.length) 0

theorem pad32_eq_padTo32Multiple (data : List Nat) (h1 : 1 ≤ data.length)
    (h2 : data.length ≤ 32) : pad32 data = padTo32Multiple data := by
  have h : 32 - data.length = 32 * ((data.length + 31) / 32) - data.length := by omega
  rw [pad32, padTo32Multiple, h]

theorem pad32_take32 (data : List Nat) (h : 32 ≤ data.length) :
    pad32 (data.take 32) = data.take 32 := by
  simp [pad32, List.length_take, Nat.min_eq_left h]

theorem take_append_padTo32 (data : List Nat) (h : 32 < data.length) :
    data.take 32 ++ padTo32Multiple (data.drop 32) = padTo32Multiple data := by
  unfold padTo32Multiple
  rw [← List.append_assoc, List.take_append_drop]
  have hl : (data.drop 32).length = data.length - 32 := List.length_drop 32 data
  have h2 : 32 * (((data.drop 32).length + 31) / 32) - (data.drop 32).length
      = 32 * ((data.length + 31) / 32) - data.length := by
    rw [hl]; omega
  rw [h2]

theorem processCommand_start (st : ReassemblyContext) (cid now : Nat)
    (data32 : List Nat) (h : st.active = false) :
    processCommand st now
      { commandId := cid, commandSeqID := 0, finalCommand := false, commandData := data32 }
      = ({ active := true, commandId := cid, expectedSeqID := 1,
           startTime := now, buffer := data32 }, none) := by
  simp [processCommand, h]

theorem processCommand_append (cid seq now : Nat) (b data32 : List Nat)
    (hov : b.length + 32 ≤ 512) :
    processCommand
      { active := true, commandId := cid, expectedSeqID := seq, startTime := now, buffer := b }
      now { commandId := cid, commandSeqID := seq, finalCommand := false, commandData := data32 }
      = ({ active := true, commandId := cid, expectedSeqID := seq + 1,
           startTime := now, buffer := b ++ data32 }, none) := by
  have hov2 : ¬ (512 < b.length + 32) := by omega
  simp [processCommand, sub32_self, hov2]

theorem processCommand_append_final (cid seq now : Nat) (b data32 : List Nat)
    (hs0 : seq ≠ 0) (hov : b.length + 32 ≤ 512) :
    processCommand
      { active := true, commandId := cid, expectedSeqID := seq, startTime := now, buffer := b }
      now { commandId := cid, commandSeqID := seq, finalCommand := true, commandData := data32 }
      = (emptyReassembly, some (b ++ data32)) := by
  have hov2 : ¬ (512 < b.length + 32) := by omega
  simp [processCommand, sub32_self, hov2, hs0]

theorem runFragments_tail (fuel : Nat) :
    ∀ (seq : Nat) (data b : List Nat) (cid now : Nat),
      1 ≤ data.length → data.length ≤ 32 * fuel → 1 ≤ seq →
      b.length + 32 * ((data.length + 31) / 32) ≤ 512 →
      runFragments now
        { active := true, commandId := cid, expectedSeqID := seq,
          startTime := now, buffer := b }
        (fragmentLoop cid fuel seq data)
        = (emptyReassembly, [b ++ padTo32Multiple data]) := by
  induction fuel with
  | zero => intro seq data b cid now h1 h2 h3 h4; omega
  | succ n ih =>
    intro seq data b cid now h1 h2 h3 h4
    rw [fragmentLoop]
    by_cases hle : data.length ≤ 32
    · rw [if_pos hle]
      have hov : b.length + 32 ≤ 512 := by omega
      have hs0 : seq ≠ 0 := by omega
      simp only [runFragments,
        processCommand_append_final cid seq now b (pad32 data) hs0 hov]
      simp [pad32_eq_padTo32Multiple data h1 hle]
    · rw [if_neg hle]
      push_neg at hle
      have hov : b.length + 32 ≤ 512 := by omega
      simp only [runFragments,
        processCommand_append cid seq now b (pad32 (data.take 32)) hov]
      rw [pad32_take32 data (by omega)]
      have hdl : (data.drop 32).length = data.length - 32 := List.length_drop 32 data
      have hbl : (b ++ data.take 32).length = b.length + 32 := by
        simp [List.length_take, Nat.min_eq_left (by omega : 32 ≤ data.length)]
      rw [ih (seq + 1) (data.drop 32) (b ++ data.take 32) cid now
        (by omega) (by omega) (by omega) (by rw [hbl, hdl]; omega)]
      simp only [Option.toList_none, List.nil_append, Prod.mk.injEq, true_and]
      rw [List.append_assoc, take_append_padTo32 data (by omega)]

/-- C3 counterexample: fragmenting the 1-byte payload `[7]` and feeding the
result to the node receive path delivers one command of 32 bytes (the
payload zero-padded to the fixed fragment slot), not a 1-byte command equal
to the original payload — the delivered length does not equal the original
length. -/
theorem fragment_roundtrip_pads_one_byte :
    (runFragments 0 emptyReassembly (sendFragmented 9 [7])).2 = [pad32 [7]] ∧
    ((runFragments 0 emptyReassembly (sendFragmented 9 [7])).2.map List.length) = [32] ∧
    (runFragments 0 emptyReassembly (sendFragmented 9 [7])).2 ≠ [[7]] := by
  refine ⟨by decide, by decide, by decide⟩

/-- C3 amended: for any payload of 1 to 512 bytes, fragmenting with
`sendFragmented` and feeding the fragments in order to the node receive
path delivers exactly one reassembled command, whose bytes are the original
payload padded with zero bytes to the next multiple of 32: its first
`len` bytes equal the payload and its length is `32 * ceil(len/32)` (equal
to the original length only when that is a multiple of 32). -/
theorem sendFragmented_roundtrip (p : List Nat) (cid now : Nat)
    (h1 : 1 ≤ p.length) (h2 : p.length ≤ 512) :
    (runFragments now emptyReassembly (sendFragmented cid p)).2 = [padTo32Multiple p] ∧
    (padTo32Multiple p).take p.length = p ∧
    (padTo32Multiple p).length = 32 * ((p.length + 31) / 32) := by
  refine ⟨?_, ?_, ?_⟩
  · obtain ⟨m, hm⟩ : ∃ m, p.length = m + 1 := ⟨p.length - 1, by omega⟩
    rw [sendFragmented, hm, fragmentLoop]
    by_cases hle : p.length ≤ 32
    · rw [if_pos hle]
      simp [runFragments, processCommand, pad32_eq_padTo32Multiple p h1 hle]
    · rw [if_neg hle]
      push_neg at hle
      simp only [runFragments,
        processCommand_start emptyReassembly cid now (pad32 (p.take 32)) rfl]
      rw [pad32_take32 p (by omega)]
      have hdl : (p.drop 32).length = p.length - 32 := List.length_drop 32 p
      have htl : (p.take 32).length = 32 :=
        by simp [List.length_take, Nat.min_eq_left (by omega : 32 ≤ p.length)]
      rw [runFragments_tail m 1 (p.drop 32) (p.take 32) cid now
        (by omega) (by omega) (by omega) (by rw [htl, hdl]; omega)]
      simp only [Option.toList_none, List.nil_append]
      rw [take_append_padTo32 p (by omega)]
  · rw [padTo32Multiple]
    exact List.take_left p _
  · simp only [padTo32Multiple, List.length_append, List.length_replicate]
    omega

/-- Concrete instance of `sendFragmented_roundtrip` at the 3-byte payload
`[1, 2, 3]`. -/
theorem sendFragmented_roundtrip_witness :
    (runFragments 0 emptyReassembly (sendFragmented 9 [1, 2, 3])).2
      = [padTo32Multiple [1, 2, 3]] :=
  (sendFragmented_roundtrip [1, 2, 3] 9 0 (by decide) (by decide)).1

/-- C5 counterexample: while a fresh (non-timed-out) transfer is in flight
expecting fragment 1, an arriving multi-fragment frame with index 0 and the
same command id does not start a new transfer: the in-flight transfer is
discarded, the fragment itself is dropped, nothing is delivered, and the
resulting context is inactive — contradicting "a fragment with index 0
always starts a new reassembly transfer". -/
theorem fragment_zero_does_not_always_restart :
    processCommand
      { active := true, commandId := 1, expectedSeqID := 1, startTime := 0,
        buffer := List.replicate 32 5 }
      10
      { commandId := 1, commandSeqID := 0, finalCommand := false,
        commandData := List.replicate 32 7 }
      = (emptyReassembly, none) ∧
    emptyReassembly.active = false := by
  refine ⟨by decide, by decide⟩

/-- C5 amended: a multi-fragment Command frame with index 0 starts a new
reassembly transfer exactly when no transfer is in flight or the in-flight
one is stale (older than the 1.5 s reassembly timeout), the stale transfer
being discarded silently; an index-0 fragment arriving during a fresh
in-flight transfer instead discards that transfer without starting a new
one (an instance of the mismatch rule); and a fragment whose command id
differs from the active transfer's id, or whose index is not the next
expected index, discards the entire partial transfer with nothing delivered
to the command handler. -/
theorem processCommand_restart_and_discard (st : ReassemblyContext)
    (now : Nat) (cmd : CommandMessage)
    (hmulti : ¬(cmd.commandSeqID = 0 ∧ cmd.finalCommand = true)) :
    (st.active = true → 1500 < sub32 now st.startTime → cmd.commandSeqID = 0 →
      processCommand st now cmd
        = ({ active := true, commandId := cmd.commandId, expectedSeqID := 1,
             startTime := now, buffer := cmd.commandData }, none)) ∧
    (st.active = false → cmd.commandSeqID = 0 →
      processCommand st now cmd
        = ({ active := true, commandId := cmd.commandId, expectedSeqID := 1,
             startTime := now, buffer := cmd.commandData }, none)) ∧
    (st.active = true → sub32 now st.startTime ≤ 1500 →
      cmd.commandId ≠ st.commandId →
      processCommand st now cmd = (emptyReassembly, none)) ∧
    (st.active = true → sub32 now st.startTime ≤ 1500 →
      cmd.commandId = st.commandId → cmd.commandSeqID ≠ st.expectedSeqID →
      processCommand st now cmd = (emptyReassembly, none)) := by
  have hfin : cmd.commandSeqID = 0 → cmd.finalCommand = false := by
    intro h
    cases hf : cmd.finalCommand
    · rfl
    · exact absurd ⟨h, hf⟩ hmulti
  refine ⟨?_, ?_, ?_, ?_⟩
  · intro ha htime hseq
    simp [processCommand, hmulti, ha, htime, hseq, hfin hseq, emptyReassembly]
  · intro ha hseq
    simp [processCommand, hmulti, ha, hseq, hfin hseq]
  · intro ha htime hid
    have ht2 : ¬ (1500 < sub32 now st.startTime) := by omega
    simp [processCommand, hmulti, ha, ht2, hid]
  · intro ha htime hid hseq
    have ht2 : ¬ (1500 < sub32 now st.startTime) := by omega
    simp [processCommand, hmulti, ha, ht2, hid, hseq]

/-- Concrete instance of `processCommand_restart_and_discard`: an index-0
fragment arriving with no transfer in flight starts a new transfer, and a
wrong-index fragment during a fresh transfer discards it. -/
theorem processCommand_restart_and_discard_witness :
    processCommand emptyReassembly 10
      { commandId := 4, commandSeqID := 0, finalCommand := false,
        commandData := List.replicate 32 9 }
      = ({ active := true, commandId := 4, expectedSeqID := 1,
           startTime := 10, buffer := List.replicate 32 9 }, none) ∧
    processCommand
      { active := true, commandId := 3, expectedSeqID := 2, startTime := 0,
        buffer := List.replicate 64 1 }
      10
      { commandId := 3, commandSeqID := 1, finalCommand := false,
        commandData := List.replicate 32 2 }
      = (emptyReassembly, none) := by
  constructor
  · exact (processCommand_restart_and_discard emptyReassembly 10
      { commandId := 4, commandSeqID := 0, finalCommand := false,
        commandData := List.replicate 32 9 } (by decide)).2.1 rfl rfl
  · exact (processCommand_restart_and_discard
      { active := true, commandId := 3, expectedSeqID := 2, startTime := 0,
        buffer := List.replicate 64 1 } 10
      { commandId := 3, commandSeqID := 1, finalCommand := false,
        commandData := List.replicate 32 2 } (by decide)).2.2.2
      rfl (by decide) rfl (by decide)

/-! ## Device admission on Announce
(src/src/managers/AquariumManager.cpp lines 148-288 and 574-607)

`NodeType` from src/include/protocol/messages.h, the per-aquarium device
map and the global `_globalDeviceRegistry` are modelled with MAC keys as
`Nat`. The unmapped-device path (tankId = 0) writes a JSON file on flash
and touches neither structure, which the model reflects. -/

/-- `NodeType` (src/include/protocol/messages.h). -/
inductive NType where
  | UNKNOWN
  | HUB
  | LIGHT
  | CO2
  | DOSER
  | SENSOR
  | HEATER
  | FILTER
  | FISH_FEEDER
  | REPEATER
deriving DecidableEq

/-- The registry entry for an admitted device. -/
structure RegDevice where
  mac : Nat
  dtype : NType
  tankId : Nat
  firmwareVersion : Nat
deriving DecidableEq

/-- One `Aquarium`: its id and its owned device map. -/
structure AquariumM where
  aqId : Nat
  devices : List (Nat × RegDevice)
deriving DecidableEq

/-- The `AquariumManager` state the Announce handler reads and writes:
the aquarium map and the global address-to-device registry. -/
structure HubState where
  aquariums : List AquariumM
  registry : List (Nat × RegDevice)
deriving DecidableEq

/-- `AquariumManager::_createDevice` (src/src/managers/AquariumManager.cpp
lines 574-607): in the source every concrete construction
(`new LightDevice(...)` etc.) is commented out, so the function falls
through to "Device type %d not yet implemented" and returns `nullptr` for
every node type, known or unknown. -/
def createDevice (mac : Nat) (t : NType) : Option RegDevice :=
  match t with
  | NType.LIGHT => none
  | NType.CO2 => none
  | NType.HEATER => none
  | NType.FISH_FEEDER => none
  | NType.SENSOR => none
  | NType.REPEATER => none
  | _ => none

/-- The outcome of `AquariumManager::handleAnnounce`: the new hub state,
the tankId and accepted flag of the Ack reply, and whether a device was
created and registered. -/
structure AnnounceOutcome where
  hub : HubState
  ackTankId : Nat
  ackAccepted : Bool
  deviceCreated : Bool
deriving DecidableEq

/-- `AquariumManager::handleAnnounce` (src/src/managers/AquariumManager.cpp
lines 148-288): an already-registered address is re-acked accepted; a
tankId of 0 stores the sender in the unmapped-devices JSON file (outside
both maps) and acks accepted; an unknown tankId is acked rejected; and
otherwise the handler tries `_createDevice`, adds the result to the target
aquarium and the global registry and acks accepted — or acks rejected when
creation or insertion fails. -/
def handleAnnounce (h : HubState) (mac tankId : Nat) (ntype : NType)
    (fw : Nat) : AnnounceOutcome :=
  if (h.registry.lookup mac).isSome then
    { hub := h, ackTankId := tankId, ackAccepted := true, deviceCreated := false }
  else if tankId = 0 then
    { hub := h, ackTankId := 0, ackAccepted := true, deviceCreated := false }
  else
    match h.aquariums.find? (fun a => a.aqId = tankId) with
    | none =>
      { hub := h, ackTankId := tankId, ackAccepted := false, deviceCreated := false }
    | some aq =>
      match createDevice mac ntype with
      | none =>
        { hub := h, ackTankId := tankId, ackAccepted := false, deviceCreated := false }
      | some dev0 =>
        let dev1 := { dev0 with firmwareVersion := fw }
        if (aq.devices.lookup mac).isSome then
          { hub := h, ackTankId := tankId, ackAccepted := false, deviceCreated := false }
        else
          let dev2 := { dev1 with tankId := aq.aqId }
          { hub :=
              { aquariums := h.aquariums.map (fun a =>
                  if a.aqId = tankId then
                    { a with devices := a.devices ++ [(mac, dev2)] }
                  else a),
                registry := h.registry ++ [(mac, dev2)] },
            ackTankId := tankId, ackAccepted := true, deviceCreated := true }

/-- C8: an Announce from an unregistered address naming a non-zero tankId
for which no Aquarium exists is answered with Ack(accepted = false) and
changes nothing: no device is created, and the global registry and every
aquarium's device map are exactly as before. -/
theorem handleAnnounce_unknown_tank_rejected (h : HubState)
    (mac tankId fw : Nat) (ntype : NType)
    (h1 : h.registry.lookup mac = none) (h2 : tankId ≠ 0)
    (h3 : h.aquariums.find? (fun a => a.aqId = tankId) = none) :
    handleAnnounce h mac tankId ntype fw
      = { hub := h, ackTankId := tankId, ackAccepted := false,
          deviceCreated := false } := by
  simp [handleAnnounce, h1, h2, h3]

/-- Concrete instance of `handleAnnounce_unknown_tank_rejected`: a hub that
owns only aquarium 1 rejects an Announce naming tank 7 and keeps its state. -/
theorem handleAnnounce_unknown_tank_rejected_witness :
    handleAnnounce
      { aquariums := [{ aqId := 1, devices := [] }], registry := [] }
      42 7 NType.LIGHT 3
      = { hub := { aquariums := [{ aqId := 1, devices := [] }], registry := [] },
          ackTankId := 7, ackAccepted := false, deviceCreated := false } :=
  handleAnnounce_unknown_tank_rejected
    { aquariums := [{ aqId := 1, devices := [] }], registry := [] }
    42 7 3 NType.LIGHT rfl (by decide) (by decide)

/-- C1 (failing input): an Announce from the unregistered address 77 naming
the existing aquarium 1 with node type LIGHT. The claim says a concrete
LightDevice is constructed, added to aquarium 1, registered globally and
acked accepted; the code's `_createDevice` returns `nullptr` for every node
type (all constructions are commented out, "not yet implemented"), so the
handler replies Ack(accepted = false), creates no device and leaves the
hub state unchanged. -/
theorem handleAnnounce_stub_rejects_valid_announce :
    handleAnnounce
      { aquariums := [{ aqId := 1, devices := [] }], registry := [] }
      77 1 NType.LIGHT 3
      = { hub := { aquariums := [{ aqId := 1, devices := [] }], registry := [] },
          ackTankId := 1, ackAccepted := false, deviceCreated := false } ∧
    createDevice 77 NType.LIGHT = none := by
  refine ⟨by decide, by decide⟩

/-! ## Node pairing state machine
(src/lib/NodeBase/node_base.cpp lines 94-182, `onDataReceived` ACK case) -/

/-- `NodeState` (src/lib/NodeBase/node_base.h). -/
inductive NState where
  | INITIALIZING
  | ANNOUNCING
  | WAITING_FOR_ACK
  | CONNECTED
  | LOST_CONNECTION
deriving DecidableEq

/-- The node-global pairing state touched by `onDataReceived`. -/
structure NodeSt where
  state : NState
  hubDiscovered : Bool
  hubMac : Nat
  lastHeartbeatReceived : Nat
deriving DecidableEq

/-- The ACK branch of `onDataReceived` (src/lib/NodeBase/node_base.cpp
lines 109-147): a frame from a sender other than the paired hub is dropped;
otherwise the last-received timestamp is refreshed, and an accepted Ack in
state `WAITING_FOR_ACK` records the sender as the hub peer (when none is
recorded yet) and moves the node to `CONNECTED`. -/
def onAckReceived (n : NodeSt) (mac : Nat) (accepted : Bool) (now : Nat) : NodeSt :=
  if n.hubDiscovered = true ∧ mac ≠ n.hubMac then n
  else
    let n1 := { n with lastHeartbeatReceived := now }
    if accepted = true ∧ n1.state = NState.WAITING_FOR_ACK then
      let n2 := if n1.hubDiscovered = false
        then { n1 with hubMac := mac, hubDiscovered := true } else n1
      { n2 with state := NState.CONNECTED }
    else n1

/-- C9 counterexample: a node in state `ANNOUNCING` (no hub discovered)
receiving an accepted Ack does not transition to `CONNECTED` — the handler
requires `currentState == WAITING_FOR_ACK` — it only refreshes the
last-received timestamp and stays in `ANNOUNCING`. -/
theorem announcing_ignores_accepted_ack :
    onAckReceived
      { state := NState.ANNOUNCING, hubDiscovered := false, hubMac := 0,
        lastHeartbeatReceived := 0 } 5 true 100
      = { state := NState.ANNOUNCING, hubDiscovered := false, hubMac := 0,
          lastHeartbeatReceived := 100 } ∧
    (onAckReceived
      { state := NState.ANNOUNCING, hubDiscovered := false, hubMac := 0,
        lastHeartbeatReceived := 0 } 5 true 100).state ≠ NState.CONNECTED := by
  refine ⟨by decide, by decide⟩

/-- C9 amended: only in state `WAITING_FOR_ACK` does receiving an accepted
Ack (from the paired hub, or from any sender when no hub is recorded yet)
transition the node to `CONNECTED`, with the ack sender recorded as its
sole hub peer; in `ANNOUNCING` an accepted Ack leaves the state unchanged. -/
theorem waiting_for_ack_accepted_connects (n : NodeSt) (mac now : Nat)
    (h1 : n.state = NState.WAITING_FOR_ACK)
    (h2 : ¬(n.hubDiscovered = true ∧ mac ≠ n.hubMac)) :
    (onAckReceived n mac true now).state = NState.CONNECTED ∧
    (onAckReceived n mac true now).hubDiscovered = true ∧
    (onAckReceived n mac true now).hubMac = mac ∧
    (∀ m : NodeSt, m.state = NState.ANNOUNCING → m.hubDiscovered = false →
      (onAckReceived m mac true now).state = NState.ANNOUNCING) := by
  have hmain : (onAckReceived n mac true now).state = NState.CONNECTED ∧
      (onAckReceived n mac true now).hubDiscovered = true ∧
      (onAckReceived n mac true now).hubMac = mac := by
    cases hd : n.hubDiscovered
    · simp [onAckReceived, h1, h2, hd]
    · have hmac : mac = n.hubMac := by
        by_contra hc
        exact h2 ⟨hd, hc⟩
      simp [onAckReceived, h1, h2, hd, hmac]
  refine ⟨hmain.1, hmain.2.1, hmain.2.2, ?_⟩
  intro m hm1 hm2
  simp [onAckReceived, hm1, hm2]

/-- Concrete instance of `waiting_for_ack_accepted_connects`: a freshly
announcing node waiting for its Ack adopts sender 5 and connects. -/
theorem waiting_for_ack_accepted_connects_witness :
    (onAckReceived
      { state := NState.WAITING_FOR_ACK, hubDiscovered := false, hubMac := 0,
        lastHeartbeatReceived := 0 } 5 true 100).state = NState.CONNECTED ∧
    (onAckReceived
      { state := NState.WAITING_FOR_ACK, hubDiscovered := false, hubMac := 0,
        lastHeartbeatReceived := 0 } 5 true 100).hubDiscovered = true ∧
    (onAckReceived
      { state := NState.WAITING_FOR_ACK, hubDiscovered := false, hubMac := 0,
        lastHeartbeatReceived := 0 } 5 true 100).hubMac = 5 := by
  have h := waiting_for_ack_accepted_connects
    { state := NState.WAITING_FOR_ACK, hubDiscovered := false, hubMac := 0,
      lastHeartbeatReceived := 0 } 5 100 rfl (by decide)
  exact ⟨h.1, h.2.1, h.2.2.1⟩

end AMS
